import Mathlib

/-!
Shallow embedding of `pythonforandroid/recommendations.py`: a pre-flight gate
validating NDK version, target Android API level, NDK API level and host
interpreter version.

Modelling conventions:
* Machine effects are made explicit.  A log call (`info` / `warning` from
  `pythonforandroid.logger`) becomes an entry in a returned `List Log`; a
  raised `BuildInterruptingException` becomes the `CheckResult.raise`
  constructor; any other Python exception escaping a call becomes
  `CheckResult.pyExc` with the exception's qualified name.
* The filesystem is abstracted to the contents of
  `<ndk_dir>/source.properties`, passed as `Option String`: `none` models
  `open` raising `IOError`.
* `sys.version_info` is passed as explicit `major`/`minor` arguments.
-/

namespace Recommendations

/-- Severity of a log call in `pythonforandroid.logger`. -/
inductive LogLevel where
  | info
  | warning
deriving DecidableEq, Repr

/-- One emitted log message. -/
structure Log where
  level : LogLevel
  msg : String
deriving DecidableEq, Repr

/-- An `info(...)` log call. -/
def Log.info (m : String) : Log := ⟨LogLevel.info, m⟩

/-- A `warning(...)` log call. -/
def Log.warning (m : String) : Log := ⟨LogLevel.warning, m⟩

/-- The warning-severity entries of an emitted log list. -/
def warningsOf (logs : List Log) : List Log :=
  logs.filter (fun l => l.level == LogLevel.warning)

/-- `BuildInterruptingException(message, instructions=None)` from
`pythonforandroid.util`: the distinguished fatal, build-blocking exception. -/
structure BuildInterruptingException where
  message : String
  instructions : Option String
deriving DecidableEq, Repr

/-- How one call to a check function ends: normal return, a raised
`BuildInterruptingException` (the fatal path), or some other Python exception
propagating uncaught out of the call. -/
inductive CheckResult where
  | pass
  | raise (e : BuildInterruptingException)
  | pyExc (excName : String)
deriving DecidableEq, Repr

/-- Whether the call ended on the fatal path (`BuildInterruptingException`). -/
def CheckResult.isFatal : CheckResult → Bool
  | .raise _ => true
  | _ => false

/-- `packaging.version.Version` restricted to what this module consumes: the
numeric release components.  `major`/`minor` and ordering below follow
`packaging` for such plain-release versions. -/
structure PyVersion where
  release : List Nat
deriving DecidableEq, Repr

/-- `Version.major`: the first release component, `0` when absent. -/
def PyVersion.major (v : PyVersion) : Nat := v.release.headD 0

/-- `Version.minor`: the second release component, `0` when absent. -/
def PyVersion.minor (v : PyVersion) : Nat := (v.release.drop 1).headD 0

/-- `packaging` comparison key for a release tuple: trailing zero components
are dropped before comparison (so `3.0` compares equal to `3`). -/
def releaseKey (r : List Nat) : List Nat :=
  (r.reverse.dropWhile (fun x => x == 0)).reverse

/-- Strict lexicographic order on release keys, as `packaging` compares the
release segments of two plain-release versions. -/
def releaseLt : List Nat → List Nat → Bool
  | [], [] => false
  | [], _ :: _ => true
  | _ :: _, [] => false
  | a :: as, b :: bs => if a < b then true else if b < a then false else releaseLt as bs

/-- `Version.__lt__` on plain-release versions. -/
def PyVersion.lt (a b : PyVersion) : Bool :=
  releaseLt (releaseKey a.release) (releaseKey b.release)

/-- Python `str.strip()`: drop leading and trailing whitespace characters. -/
def pyStrip (cs : List Char) : List Char :=
  ((cs.dropWhile Char.isWhitespace).reverse.dropWhile Char.isWhitespace).reverse

/-- Python `str.split(sep)` for a one-character separator: split at every
occurrence, keeping empty pieces. -/
def splitOnCharAux (sep : Char) : List Char → List Char → List (List Char)
  | [], acc => [acc.reverse]
  | c :: rest, acc =>
    if c = sep then acc.reverse :: splitOnCharAux sep rest []
    else splitOnCharAux sep rest (c :: acc)

/-- `cs.split(sep)` on character lists. -/
def splitOnChar (sep : Char) (cs : List Char) : List (List Char) :=
  splitOnCharAux sep cs []

/-- Numeric value of a string of decimal digits. -/
def digitsToNat (cs : List Char) : Nat :=
  cs.foldl (fun n c => 10 * n + (c.toNat - 48)) 0

/-- Models `packaging.version.parse` (packaging ≥ 22, as required by this
2025-era code): it returns a `Version` for a valid PEP 440 version string and
raises `packaging.version.InvalidVersion` otherwise — there is no lenient
legacy fallback any more.  We embed the plain-release fragment of the PEP 440
grammar (optional surrounding whitespace, optional `v`/`V` marker,
dot-separated decimal components), which covers NDK `Pkg.Revision` values;
`none` models a raised `InvalidVersion`. -/
def parseVersion (s : String) : Option PyVersion :=
  let t := pyStrip s.data
  let t :=
    match t with
    | 'v' :: rest => rest
    | 'V' :: rest => rest
    | _ => t
  let parts := splitOnChar '.' t
  if parts.all (fun p => !p.isEmpty && p.all Char.isDigit) then
    some ⟨parts.map digitsToNat⟩
  else
    none

/-- We only check the NDK major version (source comment). -/
def MIN_NDK_VERSION : Nat := 27

/-- Can be increased later (source comment). -/
def MAX_NDK_VERSION : Nat := 27

/-- Buildozer parses this (source comment). -/
def RECOMMENDED_NDK_VERSION : String := "28c"

def NDK_DOWNLOAD_URL : String := "https://developer.android.com/ndk/downloads/"

def NEW_NDK_MESSAGE : String := "Newer NDKs may not be fully supported by p4a."

def UNKNOWN_NDK_MESSAGE : String :=
  "Could not determine NDK version, no source.properties in the NDK dir."

def PARSE_ERROR_NDK_MESSAGE : String :=
  "Could not parse $NDK_DIR/source.properties, not checking NDK version."

/-- `READ_ERROR_NDK_MESSAGE.format(ndk_dir=...)`. -/
def READ_ERROR_NDK_MESSAGE (ndk_dir : String) : String :=
  s!"Unable to read the NDK version from the given directory {ndk_dir}."

/-- `ENSURE_RIGHT_NDK_MESSAGE.format(...)`. -/
def ENSURE_RIGHT_NDK_MESSAGE (min_supported : Nat) (rec_version : String)
    (ndk_url : String) : String :=
  s!"Make sure your NDK version is greater than {min_supported}. " ++
    s!"If you get build errors, download the recommended NDK {rec_version} from {ndk_url}."

/-- `NDK_LOWER_THAN_SUPPORTED_MESSAGE.format(...)`. -/
def NDK_LOWER_THAN_SUPPORTED_MESSAGE (min_supported : Nat) (ndk_url : String) : String :=
  s!"The minimum supported NDK version is {min_supported}. " ++
    s!"You can download it from {ndk_url}."

/-- `UNSUPPORTED_NDK_API_FOR_ARMEABI_MESSAGE.format(...)`. -/
def UNSUPPORTED_NDK_API_FOR_ARMEABI_MESSAGE (req_ndk_api max_ndk_api : Int) : String :=
  s!"Asked to build for armeabi architecture with API {req_ndk_api}, " ++
    s!"but API {max_ndk_api} or greater does not support armeabi."

/-- `CURRENT_NDK_VERSION_MESSAGE.format(...)`. -/
def CURRENT_NDK_VERSION_MESSAGE (ndk_version : String) : String :=
  s!"Found NDK version {ndk_version}"

/-- `RECOMMENDED_NDK_VERSION_MESSAGE.format(...)`. -/
def RECOMMENDED_NDK_VERSION_MESSAGE (recommended_ndk_version : String) : String :=
  s!"Maximum recommended NDK version is {recommended_ndk_version}, " ++
    s!"but newer versions may work."

/-- Outcome of `read_ndk_version`: Python `None` ("absent"), a parsed
`Version`, or an uncaught `packaging.version.InvalidVersion` propagating out
of the call (carrying the string that failed to parse). -/
inductive ReadNdkResult where
  | absent
  | version (v : PyVersion)
  | invalidVersion (unparsed : String)
deriving DecidableEq, Repr

/-- Python `str.splitlines` on the line terminators occurring in properties
files (`\n`, `\r`, `\r\n`); a trailing terminator yields no trailing empty
line. -/
def splitlinesAux : List Char → List Char → List String
  | [], acc => if acc.isEmpty then [] else [String.mk acc.reverse]
  | '\r' :: '\n' :: rest, acc => String.mk acc.reverse :: splitlinesAux rest []
  | '\r' :: rest, acc => String.mk acc.reverse :: splitlinesAux rest []
  | '\n' :: rest, acc => String.mk acc.reverse :: splitlinesAux rest []
  | c :: rest, acc => splitlinesAux rest (c :: acc)

/-- `ndk_data.splitlines()`. -/
def splitlines (s : String) : List String := splitlinesAux s.data []

/-- Python `str.startswith`: a raw prefix test on the character sequence, with
no whitespace normalisation. -/
def startswith (line pre : String) : Bool := pre.data.isPrefixOf line.data

/-- The `for line in ndk_data.splitlines()` loop of `read_ndk_version`: the
first line, in file order, that starts with `Pkg.Revision`, if any. -/
def findPkgRevisionLine : List String → Option String
  | [] => none
  | l :: ls => if startswith l "Pkg.Revision" then some l else findPkgRevisionLine ls

/-- `line.split("=")[-1].strip()` fed to `packaging.version.parse`. -/
def parseRevisionLine (line : String) : ReadNdkResult :=
  let unparsed := String.mk (pyStrip ((splitOnChar '=' line.data).getLastD []))
  match parseVersion unparsed with
  | some v => ReadNdkResult.version v
  | none => ReadNdkResult.invalidVersion unparsed

/-- `read_ndk_version(ndk_dir)`.  `sourceProperties` is the contents of
`<ndk_dir>/source.properties`, `none` when `open` raises `IOError`. -/
def read_ndk_version (sourceProperties : Option String) : List Log × ReadNdkResult :=
  match sourceProperties with
  | none => ([Log.info UNKNOWN_NDK_MESSAGE], ReadNdkResult.absent)
  | some ndk_data =>
    match findPkgRevisionLine (splitlines ndk_data) with
    | some line => ([], parseRevisionLine line)
    | none => ([Log.info PARSE_ERROR_NDK_MESSAGE], ReadNdkResult.absent)

/-- The dict `{0: ""}` updated with `{n + 1: chr(i) for n, i in
enumerate(range(ord("b"), ord("b") + 25))}` (so keys `1..25` map to the
letters `b..z`), read through `.get(minor, "")` in `check_ndk_version`. -/
def minor_to_letter (minor : Nat) : String :=
  if minor = 0 then ""
  else if minor ≤ 25 then String.mk [Char.ofNat (98 + (minor - 1))]
  else ""

/-- `f"{ndk_version.major}{minor_to_letter.get(ndk_version.minor, '')}"`. -/
def string_version (v : PyVersion) : String :=
  s!"{v.major}{minor_to_letter v.minor}"

/-- `check_ndk_version(ndk_dir)`: check the NDK version and raise/warn
accordingly. -/
def check_ndk_version (ndk_dir : String) (sourceProperties : Option String) :
    List Log × CheckResult :=
  match read_ndk_version sourceProperties with
  | (logs, ReadNdkResult.absent) =>
    (logs ++
      [Log.warning (READ_ERROR_NDK_MESSAGE ndk_dir),
       Log.warning (ENSURE_RIGHT_NDK_MESSAGE MIN_NDK_VERSION RECOMMENDED_NDK_VERSION
        NDK_DOWNLOAD_URL)],
     CheckResult.pass)
  | (logs, ReadNdkResult.invalidVersion _) =>
    (logs, CheckResult.pyExc "packaging.version.InvalidVersion")
  | (logs, ReadNdkResult.version v) =>
    let logs := logs ++ [Log.info (CURRENT_NDK_VERSION_MESSAGE (string_version v))]
    if v.major < MIN_NDK_VERSION then
      (logs,
       CheckResult.raise
        ⟨NDK_LOWER_THAN_SUPPORTED_MESSAGE MIN_NDK_VERSION NDK_DOWNLOAD_URL,
         some (s!"Please download a supported NDK from {NDK_DOWNLOAD_URL}.\n" ++
          s!"*** The currently recommended NDK version is {RECOMMENDED_NDK_VERSION} ***")⟩)
    else if MAX_NDK_VERSION < v.major then
      (logs ++
        [Log.warning (RECOMMENDED_NDK_VERSION_MESSAGE RECOMMENDED_NDK_VERSION),
         Log.warning NEW_NDK_MESSAGE],
       CheckResult.pass)
    else
      (logs, CheckResult.pass)

/-- Android 11, baseline secure (source comment). -/
def MIN_TARGET_API : Int := 30

/-- Android 14, Play Store requirement 2025 (source comment). -/
def RECOMMENDED_TARGET_API : Int := 34

/-- armeabi was removed after API 21 (source comment). -/
def ARMEABI_MAX_TARGET_API : Int := 21

def OLD_API_MESSAGE : String :=
  "Target APIs lower than 30 are no longer supported on Google Play. " ++
    "The Target API should usually be as high as possible."

/-- `check_target_api(api, arch)`: warn if target API is too low. -/
def check_target_api (api : Int) (arch : String) : List Log × CheckResult :=
  if ARMEABI_MAX_TARGET_API ≤ api ∧ arch = "armeabi" then
    ([],
     CheckResult.raise
      ⟨UNSUPPORTED_NDK_API_FOR_ARMEABI_MESSAGE api ARMEABI_MAX_TARGET_API,
       some "Use --arch=armeabi-v7a instead."⟩)
  else if api < MIN_TARGET_API then
    ([Log.warning s!"Target API {api} < {MIN_TARGET_API}", Log.warning OLD_API_MESSAGE],
     CheckResult.pass)
  else
    ([], CheckResult.pass)

/-- Android 5.0, baseline (source comment). -/
def MIN_NDK_API : Int := 21

/-- Android 7.0, safe for SDL2 and most bootstraps (source comment). -/
def RECOMMENDED_NDK_API : Int := 24

def OLD_NDK_API_MESSAGE : String := s!"NDK API less than {MIN_NDK_API} is not supported"

/-- `TARGET_NDK_API_GREATER_THAN_TARGET_API_MESSAGE.format(...)`. -/
def TARGET_NDK_API_GREATER_THAN_TARGET_API_MESSAGE (ndk_api android_api : Int) : String :=
  s!"Target NDK API {ndk_api} is higher than the target Android API {android_api}."

/-- `check_ndk_api(ndk_api, android_api)`: ensure NDK API is within supported
range. -/
def check_ndk_api (ndk_api android_api : Int) : List Log × CheckResult :=
  if android_api < ndk_api then
    ([],
     CheckResult.raise
      ⟨TARGET_NDK_API_GREATER_THAN_TARGET_API_MESSAGE ndk_api android_api,
       some "NDK API must be <= target Android API."⟩)
  else if ndk_api < MIN_NDK_API then
    ([Log.warning OLD_NDK_API_MESSAGE], CheckResult.pass)
  else
    ([], CheckResult.pass)

/-- `MIN_PYTHON_VERSION = packaging.version.Version("3.6")`. -/
def MIN_PYTHON_VERSION : PyVersion := ⟨[3, 6]⟩

/-- `f"{major}.{minor}"`. -/
def versionStr (major minor : Nat) : String := s!"{major}.{minor}"

/-- `CURRENT_PYTHON_VERSION = Version(f"{sys.version_info.major}.{sys.version_info.minor}")`,
with the interpreter version as explicit input. -/
def CURRENT_PYTHON_VERSION (major minor : Nat) : PyVersion := ⟨[major, minor]⟩

def PY2_ERROR_TEXT : String :=
  "python-for-android no longer supports Python 2. " ++
    "Upgrade to Python 3.6 or higher."

/-- `PY_VERSION_ERROR_TEXT`, which interpolates `CURRENT_PYTHON_VERSION` and
`MIN_PYTHON_VERSION` (rendered `3.6`). -/
def PY_VERSION_ERROR_TEXT (major minor : Nat) : String :=
  s!"Your Python version {versionStr major minor} is not supported, " ++
    s!"please upgrade to 3.6 or higher."

/-- `check_python_version()`: check the current Python version, with
`sys.version_info.major/minor` as explicit input. -/
def check_python_version (major minor : Nat) : List Log × CheckResult :=
  if major = 2 then
    ([], CheckResult.raise ⟨PY2_ERROR_TEXT, none⟩)
  else if (CURRENT_PYTHON_VERSION major minor).lt MIN_PYTHON_VERSION then
    ([], CheckResult.raise ⟨PY_VERSION_ERROR_TEXT major minor, none⟩)
  else
    ([], CheckResult.pass)

/-- The logger appends to a process-global buffer; the observable outcome of a
call is its result together with the slice of log entries it appended.
`callOutcome f x buf` is that outcome for a call made when the buffer already
holds `buf` — for instance the logs of an identical earlier call. -/
def callOutcome {α : Type} (f : α → List Log × CheckResult) (x : α)
    (buf : List Log) : List Log × CheckResult :=
  let r := f x
  ((buf ++ r.1).drop buf.length, r.2)

/-! ### Helper lemmas -/

/-- A list is a prefix of itself extended by anything. -/
theorem isPrefixOf_append_self : ∀ (l t : List Char), l.isPrefixOf (l ++ t) = true
  | [], _ => by simp [List.isPrefixOf]
  | a :: as, t => by simp [List.isPrefixOf, isPrefixOf_append_self as t]

/-- If no line matches, the scan finds nothing. -/
theorem findPkgRevisionLine_eq_none :
    ∀ ls : List String, (∀ l ∈ ls, startswith l "Pkg.Revision" = false) →
      findPkgRevisionLine ls = none := by
  intro ls
  induction ls with
  | nil => intro _; rfl
  | cons l ls ih =>
    intro h
    have hl := h l (List.mem_cons_self l ls)
    simp only [findPkgRevisionLine, hl]
    exact ih fun x hx => h x (List.mem_cons_of_mem l hx)

/-- The scan returns the first matching line, regardless of later lines. -/
theorem findPkgRevisionLine_first :
    ∀ (pre : List String) (line : String) (post : List String),
      (∀ l ∈ pre, startswith l "Pkg.Revision" = false) →
      startswith line "Pkg.Revision" = true →
      findPkgRevisionLine (pre ++ line :: post) = some line := by
  intro pre
  induction pre with
  | nil =>
    intro line post _ hline
    simp [findPkgRevisionLine, hline]
  | cons l ls ih =>
    intro line post h hline
    have hl := h l (List.mem_cons_self l ls)
    simp only [List.cons_append, findPkgRevisionLine, hl, if_false]
    exact ih line post (fun x hx => h x (List.mem_cons_of_mem l hx)) hline

/-- A call's observable outcome does not depend on what the log buffer already
holds. -/
theorem callOutcome_eq_call {α : Type} (f : α → List Log × CheckResult) (x : α)
    (buf : List Log) : callOutcome f x buf = f x := by
  simp [callOutcome, List.drop_left]

/-! ### The claims -/

/-- C1: the claim is FALSE on the code (and the code contradicts its own
`PARSE_ERROR_NDK_MESSAGE`, which promises that an unparseable
`source.properties` merely skips the check).  When a `Pkg.Revision` line is
present but its value is not a valid version, `packaging.version.parse` raises
`packaging.version.InvalidVersion`; nothing catches it, so `read_ndk_version`
and `check_ndk_version` neither warn nor return normally — the exception
propagates out of the gate. -/
theorem c1_unparseable_revision_raises_uncaught :
    read_ndk_version (some "Pkg.Revision = unknown") =
      ([], ReadNdkResult.invalidVersion "unknown")
    ∧ check_ndk_version "/opt/android/ndk" (some "Pkg.Revision = unknown") =
        ([], CheckResult.pyExc "packaging.version.InvalidVersion") := by
  exact ⟨rfl, rfl⟩

/-- C6: the minor-to-letter suffix mapping used by `check_ndk_version` sends
minor 0 to the empty suffix and minors 1–25 sequentially to the letters
`b`–`z` (skipping `a`, i.e. minor `n` goes to the character of code
`ord("a") + n`); every minor ≥ 26 misses the mapping and falls back to the
empty suffix. -/
theorem c6_minor_to_letter_mapping :
    minor_to_letter 0 = ""
    ∧ minor_to_letter 1 = "b"
    ∧ minor_to_letter 2 = "c"
    ∧ minor_to_letter 25 = "z"
    ∧ (∀ n : Nat, 1 ≤ n → n ≤ 25 → minor_to_letter n = String.mk [Char.ofNat (97 + n)])
    ∧ (∀ n : Nat, 26 ≤ n → minor_to_letter n = "") := by
  refine ⟨rfl, rfl, rfl, rfl, ?_, ?_⟩
  · intro n h1 h25
    unfold minor_to_letter
    rw [if_neg (by omega), if_pos h25, show 98 + (n - 1) = 97 + n by omega]
  · intro n h26
    unfold minor_to_letter
    rw [if_neg (by omega), if_neg (by omega)]

/-- Witness for C6 at minor 13: the letter is `n` (code 110). -/
theorem c6_minor_to_letter_mapping_witness :
    1 ≤ 13 ∧ 13 ≤ 25 ∧ minor_to_letter 13 = String.mk [Char.ofNat 110] :=
  ⟨by omega, by omega,
    c6_minor_to_letter_mapping.2.2.2.2.1 13 (by omega) (by omega)⟩

/-- C9: the module's threshold constants have exactly the values the spec
requires for behavioral parity: minimum and maximum NDK major 27, recommended
NDK label `28c`, minimum target API 30, recommended target API 34, armeabi
maximum target API 21, minimum NDK API 21, recommended NDK API 24, minimum
interpreter version 3.6. -/
theorem c9_threshold_constants :
    MIN_NDK_VERSION = 27 ∧ MAX_NDK_VERSION = 27
    ∧ RECOMMENDED_NDK_VERSION = "28c"
    ∧ MIN_TARGET_API = 30 ∧ RECOMMENDED_TARGET_API = 34
    ∧ ARMEABI_MAX_TARGET_API = 21
    ∧ MIN_NDK_API = 21 ∧ RECOMMENDED_NDK_API = 24
    ∧ MIN_PYTHON_VERSION.major = 3 ∧ MIN_PYTHON_VERSION.minor = 6 :=
  ⟨rfl, rfl, rfl, rfl, rfl, rfl, rfl, rfl, rfl, rfl⟩

/-- C10: every check is deterministic and accumulates no hidden state between
calls: the observable outcome (result and emitted log slice) of a call made
with any pre-existing logger buffer — in particular the buffer left by an
identical first call — equals the outcome of the first call itself. -/
theorem c10_checks_deterministic :
    (∀ (api : Int) (arch : String) (buf : List Log),
      callOutcome (fun p : Int × String => check_target_api p.1 p.2) (api, arch) buf =
        check_target_api api arch)
    ∧ (∀ (ndk_api android_api : Int) (buf : List Log),
      callOutcome (fun p : Int × Int => check_ndk_api p.1 p.2) (ndk_api, android_api) buf =
        check_ndk_api ndk_api android_api)
    ∧ (∀ (major minor : Nat) (buf : List Log),
      callOutcome (fun p : Nat × Nat => check_python_version p.1 p.2) (major, minor) buf =
        check_python_version major minor)
    ∧ (∀ (ndk_dir : String) (src : Option String) (buf : List Log),
      callOutcome (fun p : String × Option String => check_ndk_version p.1 p.2)
          (ndk_dir, src) buf =
        check_ndk_version ndk_dir src) :=
  ⟨fun api arch buf => callOutcome_eq_call _ (api, arch) buf,
   fun ndk_api android_api buf => callOutcome_eq_call _ (ndk_api, android_api) buf,
   fun major minor buf => callOutcome_eq_call _ (major, minor) buf,
   fun ndk_dir src buf => callOutcome_eq_call _ (ndk_dir, src) buf⟩

/-- C3: `check_target_api` raises fatally exactly when `arch` is the legacy
`armeabi` tag and `api ≥ 21`; this armeabi check comes first, so it is fatal
even for `api < 30` (the iff is independent of the minimum-API warning).
Otherwise the call returns normally, emitting exactly the two low-API warnings
when `api < 30` and nothing at all when `api ≥ 30`. -/
theorem c3_target_api_gate (api : Int) (arch : String) :
    ((check_target_api api arch).2.isFatal = true ↔ (21 ≤ api ∧ arch = "armeabi"))
    ∧ (¬(21 ≤ api ∧ arch = "armeabi") →
        ((check_target_api api arch).1 =
            [Log.warning s!"Target API {api} < {MIN_TARGET_API}",
             Log.warning OLD_API_MESSAGE] ↔ api < 30))
    ∧ (30 ≤ api → arch ≠ "armeabi" →
        check_target_api api arch = ([], CheckResult.pass)) := by
  unfold check_target_api
  split_ifs with h1 h2
  · refine ⟨?_, ?_, ?_⟩
    · simpa [CheckResult.isFatal] using h1
    · intro hn; exact absurd h1 hn
    · intro _ hne; exact absurd h1.2 hne
  · refine ⟨?_, ?_, ?_⟩
    · simpa [CheckResult.isFatal] using h1
    · intro _
      simp only [true_iff, iff_true]
      have h30 : api < (30 : Int) := by simpa [MIN_TARGET_API] using h2
      simpa using h30
    · intro h30 _
      have : api < (30 : Int) := by simpa [MIN_TARGET_API] using h2
      omega
  · refine ⟨?_, ?_, ?_⟩
    · simpa [CheckResult.isFatal] using h1
    · intro _
      have h30 : ¬ api < (30 : Int) := by simpa [MIN_TARGET_API] using h2
      simp [h30]
    · intro _ _; rfl

/-- Witness for C3: at `api = 20, arch = "armeabi"` the armeabi condition
fails and the call warns (20 < 30); at `api = 34, arch = "arm64-v8a"` the call
passes silently. -/
theorem c3_target_api_gate_witness :
    ¬(21 ≤ (20 : Int) ∧ "armeabi" = "armeabi")
    ∧ ((check_target_api 20 "armeabi").1 =
        [Log.warning s!"Target API {(20 : Int)} < {MIN_TARGET_API}",
         Log.warning OLD_API_MESSAGE] ↔ (20 : Int) < 30)
    ∧ (30 ≤ (34 : Int) ∧ "arm64-v8a" ≠ "armeabi")
    ∧ check_target_api 34 "arm64-v8a" = ([], CheckResult.pass) :=
  ⟨by decide,
   (c3_target_api_gate 20 "armeabi").2.1 (by decide),
   by decide,
   (c3_target_api_gate 34 "arm64-v8a").2.2 (by decide) (by decide)⟩

/-- C4: `check_ndk_api` raises fatally exactly when `ndk_api > android_api`;
when `ndk_api ≤ android_api` it emits the single low-NDK-API warning exactly
when `ndk_api < 21`, and passes silently when `ndk_api ≥ 21` (in particular
for `ndk_api = android_api ≥ 21`). -/
theorem c4_ndk_api_gate (ndk_api android_api : Int) :
    ((check_ndk_api ndk_api android_api).2.isFatal = true ↔ android_api < ndk_api)
    ∧ (ndk_api ≤ android_api →
        (((check_ndk_api ndk_api android_api).1 = [Log.warning OLD_NDK_API_MESSAGE]) ↔
          ndk_api < 21)
        ∧ (21 ≤ ndk_api → check_ndk_api ndk_api android_api = ([], CheckResult.pass))) := by
  unfold check_ndk_api
  split_ifs with h1 h2
  · refine ⟨?_, ?_⟩
    · simpa [CheckResult.isFatal] using h1
    · intro hle; omega
  · refine ⟨?_, ?_⟩
    · simpa [CheckResult.isFatal] using h1
    · intro _
      have h21 : ndk_api < (21 : Int) := by simpa [MIN_NDK_API] using h2
      refine ⟨by simpa using h21, ?_⟩
      intro h; omega
  · refine ⟨?_, ?_⟩
    · simpa [CheckResult.isFatal] using h1
    · intro _
      have h21 : ¬ ndk_api < (21 : Int) := by simpa [MIN_NDK_API] using h2
      exact ⟨by simp [h21], fun _ => rfl⟩

/-- Witness for C4 at `ndk_api = android_api = 24`: passes silently. -/
theorem c4_ndk_api_gate_witness :
    (24 : Int) ≤ 24 ∧ check_ndk_api 24 24 = ([], CheckResult.pass) :=
  ⟨by omega, ((c4_ndk_api_gate 24 24).2 (by omega)).2 (by omega)⟩

/-- The `packaging` comparison `CURRENT_PYTHON_VERSION < MIN_PYTHON_VERSION`
holds exactly when `(major, minor)` is below `(3, 6)`. -/
theorem currentPythonLt_iff (major minor : Nat) :
    (CURRENT_PYTHON_VERSION major minor).lt MIN_PYTHON_VERSION = true ↔
      (major < 3 ∨ (major = 3 ∧ minor < 6)) := by
  unfold CURRENT_PYTHON_VERSION MIN_PYTHON_VERSION PyVersion.lt releaseKey
  by_cases hm : minor = 0
  · subst hm
    by_cases hM : major = 0
    · subst hM; simp [releaseLt]
    · simp only [List.reverse_cons, List.reverse_nil, List.nil_append,
        List.cons_append, List.dropWhile]
      rw [show ((0 : Nat) == 0) = true from rfl]
      rw [show (major == 0) = false from by simpa using hM]
      simp only [List.reverse_cons, List.reverse_nil, List.nil_append, releaseLt]
      constructor
      · intro h
        split_ifs at h <;> omega
      · intro h
        split_ifs <;> first | rfl | omega
  · by_cases hM : major = 0
    · subst hM
      simp only [List.reverse_cons, List.reverse_nil, List.nil_append,
        List.cons_append, List.dropWhile]
      rw [show (minor == 0) = false from by simpa using hm]
      simp only [List.reverse_cons, List.reverse_nil, List.nil_append, releaseLt]
      simp
    · simp only [List.reverse_cons, List.reverse_nil, List.nil_append,
        List.cons_append, List.dropWhile]
      rw [show (minor == 0) = false from by simpa using hm]
      simp only [List.reverse_cons, List.reverse_nil, List.nil_append,
        List.cons_append, releaseLt]
      constructor
      · intro h
        split_ifs at h <;> omega
      · intro h
        split_ifs <;> first | rfl | omega

/-- C7: `check_python_version` raises fatally with the fixed Python-2 message
when the interpreter major version is 2; raises fatally with the distinct
message embedding the detected and minimum versions when the detected
`major.minor` is below 3.6; and passes silently for every interpreter version
3.6 or above. -/
theorem c7_python_version_gate (major minor : Nat) :
    (major = 2 →
      check_python_version major minor = ([], CheckResult.raise ⟨PY2_ERROR_TEXT, none⟩))
    ∧ (major ≠ 2 → (major < 3 ∨ (major = 3 ∧ minor < 6)) →
        check_python_version major minor =
          ([], CheckResult.raise ⟨PY_VERSION_ERROR_TEXT major minor, none⟩))
    ∧ ((major = 3 ∧ 6 ≤ minor) ∨ 4 ≤ major →
        check_python_version major minor = ([], CheckResult.pass))
    ∧ PY_VERSION_ERROR_TEXT 3 5 ≠ PY2_ERROR_TEXT := by
  refine ⟨?_, ?_, ?_, by decide⟩
  · intro h2
    unfold check_python_version
    rw [if_pos h2]
  · intro h2 hlt
    unfold check_python_version
    rw [if_neg h2, if_pos ((currentPythonLt_iff major minor).mpr hlt)]
  · intro hge
    unfold check_python_version
    rw [if_neg (by omega), if_neg ?_]
    intro hc
    have := (currentPythonLt_iff major minor).mp hc
    omega

/-- Witness for C7: Python 2.7 and 3.5 raise, 3.6 passes. -/
theorem c7_python_version_gate_witness :
    check_python_version 2 7 = ([], CheckResult.raise ⟨PY2_ERROR_TEXT, none⟩)
    ∧ check_python_version 3 5 =
        ([], CheckResult.raise ⟨PY_VERSION_ERROR_TEXT 3 5, none⟩)
    ∧ check_python_version 3 6 = ([], CheckResult.pass) :=
  ⟨(c7_python_version_gate 2 7).1 rfl,
   (c7_python_version_gate 3 5).2.1 (by omega) (by omega),
   (c7_python_version_gate 3 6).2.2.1 (by omega)⟩

/-- C2: for every parsed NDK version, `check_ndk_version` raises the fatal
`BuildInterruptingException` exactly when the major version is below 27; for
major 27 it returns normally having emitted only the informational
current-version log; for every major above 27 it returns normally having
emitted that log followed by the two newer-NDK warnings, with no exception. -/
theorem c2_ndk_major_thresholds (ndk_dir : String) (src : Option String) (v : PyVersion)
    (h : read_ndk_version src = ([], ReadNdkResult.version v)) :
    (v.major < 27 → (check_ndk_version ndk_dir src).2.isFatal = true)
    ∧ (v.major = 27 →
        check_ndk_version ndk_dir src =
          ([Log.info (CURRENT_NDK_VERSION_MESSAGE (string_version v))], CheckResult.pass))
    ∧ (27 < v.major →
        check_ndk_version ndk_dir src =
          ([Log.info (CURRENT_NDK_VERSION_MESSAGE (string_version v)),
            Log.warning (RECOMMENDED_NDK_VERSION_MESSAGE RECOMMENDED_NDK_VERSION),
            Log.warning NEW_NDK_MESSAGE], CheckResult.pass)) := by
  simp only [check_ndk_version, h, List.nil_append]
  refine ⟨?_, ?_, ?_⟩
  · intro hm
    rw [if_pos (show v.major < MIN_NDK_VERSION from hm)]
    rfl
  · intro hm
    rw [if_neg (show ¬v.major < MIN_NDK_VERSION from by simp only [MIN_NDK_VERSION]; omega),
      if_neg (show ¬MAX_NDK_VERSION < v.major from by simp only [MAX_NDK_VERSION]; omega)]
  · intro hm
    rw [if_neg (show ¬v.major < MIN_NDK_VERSION from by simp only [MIN_NDK_VERSION]; omega),
      if_pos (show MAX_NDK_VERSION < v.major from by simp only [MAX_NDK_VERSION]; omega)]
    rfl

/-- Witness for C2 at a parsed version 28.1: the file reads to major 28 > 27,
and the check passes while warning. -/
theorem c2_ndk_major_thresholds_witness :
    read_ndk_version (some "Pkg.Revision = 28.1.123") =
      ([], ReadNdkResult.version ⟨[28, 1, 123]⟩)
    ∧ 27 < (PyVersion.mk [28, 1, 123]).major
    ∧ check_ndk_version "/opt/ndk" (some "Pkg.Revision = 28.1.123") =
        ([Log.info (CURRENT_NDK_VERSION_MESSAGE (string_version ⟨[28, 1, 123]⟩)),
          Log.warning (RECOMMENDED_NDK_VERSION_MESSAGE RECOMMENDED_NDK_VERSION),
          Log.warning NEW_NDK_MESSAGE], CheckResult.pass) :=
  ⟨by decide, by decide,
   (c2_ndk_major_thresholds "/opt/ndk" _ ⟨[28, 1, 123]⟩ (by decide)).2.2 (by decide)⟩

/-- C5: `read_ndk_version` returns `None` both when the properties file cannot
be opened and when no line starts with `Pkg.Revision`; otherwise only the
first matching line in file order decides the result, via the value after the
last `=` on that line, whitespace-trimmed and parsed (`parseRevisionLine`);
`"Pkg.Revision = 27.2.12479018"` yields major 27, minor 2. -/
theorem c5_read_ndk_version_behaviour :
    read_ndk_version none = ([Log.info UNKNOWN_NDK_MESSAGE], ReadNdkResult.absent)
    ∧ (∀ s : String, (∀ l ∈ splitlines s, startswith l "Pkg.Revision" = false) →
        read_ndk_version (some s) =
          ([Log.info PARSE_ERROR_NDK_MESSAGE], ReadNdkResult.absent))
    ∧ (∀ (s : String) (pre : List String) (line : String) (post : List String),
        splitlines s = pre ++ line :: post →
        (∀ l ∈ pre, startswith l "Pkg.Revision" = false) →
        startswith line "Pkg.Revision" = true →
        (read_ndk_version (some s)).2 = parseRevisionLine line)
    ∧ read_ndk_version (some "Pkg.Revision = 27.2.12479018") =
        ([], ReadNdkResult.version ⟨[27, 2, 12479018]⟩)
    ∧ (PyVersion.mk [27, 2, 12479018]).major = 27
    ∧ (PyVersion.mk [27, 2, 12479018]).minor = 2 := by
  refine ⟨rfl, ?_, ?_, rfl, rfl, rfl⟩
  · intro s hs
    simp only [read_ndk_version, findPkgRevisionLine_eq_none (splitlines s) hs]
  · intro s pre line post hsplit hpre hline
    simp only [read_ndk_version, hsplit,
      findPkgRevisionLine_first pre line post hpre hline]

/-- Witness for C5: in a three-line file whose second and third lines both
match, the result comes from the second line alone. -/
theorem c5_read_ndk_version_behaviour_witness :
    splitlines "x=1\nPkg.Revision = 5.0\nPkg.Revision = 6.0" =
      ["x=1"] ++ "Pkg.Revision = 5.0" :: ["Pkg.Revision = 6.0"]
    ∧ (∀ l ∈ ["x=1"], startswith l "Pkg.Revision" = false)
    ∧ startswith "Pkg.Revision = 5.0" "Pkg.Revision" = true
    ∧ (read_ndk_version (some "x=1\nPkg.Revision = 5.0\nPkg.Revision = 6.0")).2 =
        ReadNdkResult.version ⟨[5, 0]⟩ :=
  ⟨by decide, by decide, by decide,
   (c5_read_ndk_version_behaviour.2.2.1 _ ["x=1"] "Pkg.Revision = 5.0"
      ["Pkg.Revision = 6.0"] (by decide) (by decide) (by decide)).trans (by decide)⟩

/-- C8 (implicit): a line matches in `read_ndk_version` only if its raw text,
with no whitespace trimming, starts with the literal `Pkg.Revision`: a line
beginning with any whitespace character is skipped by the scan, while any line
whose text merely begins with `Pkg.Revision` — e.g. the longer key in
`Pkg.RevisionX=1.2` — is treated as the matching line. -/
theorem c8_raw_prefix_match :
    (∀ (c : Char) (cs : List Char) (rest : List String), c.isWhitespace = true →
        findPkgRevisionLine (String.mk (c :: cs) :: rest) = findPkgRevisionLine rest)
    ∧ (∀ t : String, startswith ("Pkg.Revision" ++ t) "Pkg.Revision" = true)
    ∧ read_ndk_version (some " Pkg.Revision = 27.2.1") =
        ([Log.info PARSE_ERROR_NDK_MESSAGE], ReadNdkResult.absent)
    ∧ read_ndk_version (some "Pkg.RevisionX=1.2") =
        ([], ReadNdkResult.version ⟨[1, 2]⟩) := by
  refine ⟨?_, ?_, rfl, rfl⟩
  · intro c cs rest hws
    have hP : ('P' == c) = false := by
      cases hb : ('P' == c)
      · rfl
      · rw [← eq_of_beq hb] at hws
        exact absurd hws (by decide)
    have hsw : startswith (String.mk (c :: cs)) "Pkg.Revision" = false := by
      show List.isPrefixOf _ _ = false
      rw [show "Pkg.Revision".data = 'P' :: "kg.Revision".data from rfl]
      simp [List.isPrefixOf, hP]
    simp [findPkgRevisionLine, hsw]
  · intro t
    show List.isPrefixOf _ _ = true
    rw [String.data_append]
    exact isPrefixOf_append_self _ _

/-- Witness for C8: the skip rule applied to a space-indented copy of the key
(the next line is used instead), and the raw-prefix rule applied to a proper
extension of the key. -/
theorem c8_raw_prefix_match_witness :
    (' ').isWhitespace = true
    ∧ findPkgRevisionLine
        [String.mk (' ' :: "Pkg.Revision".data), "Pkg.Revision = 1.0"] =
        some "Pkg.Revision = 1.0"
    ∧ startswith ("Pkg.Revision" ++ "X=1.2") "Pkg.Revision" = true :=
  ⟨by decide,
   (c8_raw_prefix_match.1 ' ' "Pkg.Revision".data ["Pkg.Revision = 1.0"]
      (by decide)).trans (by decide),
   c8_raw_prefix_match.2.1 "X=1.2"⟩

end Recommendations
